import Mathlib

/-!
Shallow embedding of the animated hero-background gradient interpolation
loop (`setupRandomHeroBg` in `src/script/Responsive.js`) of the
Portfolio-Lisa-Bruno repository.

Modelling conventions:
* JS numbers are modelled as rationals (`ℚ`); `Math.round x` is
  `⌊x + 1/2⌋` (JS rounds half toward positive infinity) and
  `x.toFixed(2)` is rounding to the nearest hundredth.
* The JS code keeps colors as `rgba(r, g, b, a)` strings and re-parses
  them with `parseColor` before any arithmetic; the model works with the
  parsed record directly and renders it back with `colorToString`,
  matching the `rgba(${r}, ${g}, ${b}, ${a})` template used by
  `lerpColor` and by the palette literals.  The decimal rendering of the
  alpha is abstracted by `toString` on `ℚ`; no claim depends on its
  digits.
* `Math.random()` draws are passed in explicitly as a `RandomDraw`
  record of rationals, valid when each component lies in `[0, 1)`.
* DOM surfaces (`.hero-wrapper`, `.topbar`) are modelled by presence
  flags, and `style.setProperty` calls are collected as a list of
  `StyleWrite`s.
-/

/-- A parsed RGBA color: integer channels and a rational alpha, as
produced by `parseColor` in the source. -/
structure Color where
  r : ℤ
  g : ℤ
  b : ℤ
  a : ℚ
deriving DecidableEq, Repr

/-- The fixed 4-entry palette `colors` of `setupRandomHeroBg`, parsed:
rgba(255,127,180,.55), rgba(168,85,247,.55), rgba(96,165,250,.55),
rgba(20,184,166,.55). -/
def colors : List Color :=
  [⟨255, 127, 180, 55/100⟩,
   ⟨168, 85, 247, 55/100⟩,
   ⟨96, 165, 250, 55/100⟩,
   ⟨20, 184, 166, 55/100⟩]

/-- JS `Math.round`: round half toward positive infinity. -/
def jsRound (x : ℚ) : ℤ := ⌊x + 1/2⌋

/-- JS `x.toFixed(2)` read back as a number: round to nearest hundredth. -/
def toFixed2 (x : ℚ) : ℚ := (jsRound (x * 100) : ℚ) / 100

/-- `lerpColor` from the source: channel-wise linear interpolation with
`Math.round` on the channels and `toFixed(2)` on the alpha. -/
def lerpColor (c1 c2 : Color) (t : ℚ) : Color :=
  { r := jsRound ((c1.r : ℚ) + ((c2.r : ℚ) - (c1.r : ℚ)) * t)
    g := jsRound ((c1.g : ℚ) + ((c2.g : ℚ) - (c1.g : ℚ)) * t)
    b := jsRound ((c1.b : ℚ) + ((c2.b : ℚ) - (c1.b : ℚ)) * t)
    a := toFixed2 (c1.a + (c2.a - c1.a) * t) }

/-- One gradient composition: 3 colors and 3 (x%, y%) stop positions,
exactly the record returned by `generateRandomGradient`. -/
structure GradientState where
  color1 : Color
  color2 : Color
  color3 : Color
  pos1X : ℚ
  pos1Y : ℚ
  pos2X : ℚ
  pos2Y : ℚ
  pos3X : ℚ
  pos3Y : ℚ
deriving DecidableEq, Repr

/-- The three stops of a gradient state as a list (color, x%, y%). -/
def GradientState.stops (grad : GradientState) : List (Color × ℚ × ℚ) :=
  [(grad.color1, grad.pos1X, grad.pos1Y),
   (grad.color2, grad.pos2X, grad.pos2Y),
   (grad.color3, grad.pos3X, grad.pos3Y)]

/-- The nine `Math.random()` results consumed by one call to
`generateRandomGradient`: three color picks and six position draws. -/
structure RandomDraw where
  u1 : ℚ
  u2 : ℚ
  u3 : ℚ
  v1X : ℚ
  v1Y : ℚ
  v2X : ℚ
  v2Y : ℚ
  v3X : ℚ
  v3Y : ℚ
deriving DecidableEq, Repr

/-- A `Math.random()` result lies in `[0, 1)`. -/
def unitIv (u : ℚ) : Prop := 0 ≤ u ∧ u < 1

instance (u : ℚ) : Decidable (unitIv u) := by unfold unitIv; infer_instance

/-- All nine draws of a `RandomDraw` lie in `[0, 1)`. -/
def RandomDraw.Valid (rd : RandomDraw) : Prop :=
  unitIv rd.u1 ∧ unitIv rd.u2 ∧ unitIv rd.u3 ∧
  unitIv rd.v1X ∧ unitIv rd.v1Y ∧ unitIv rd.v2X ∧
  unitIv rd.v2Y ∧ unitIv rd.v3X ∧ unitIv rd.v3Y

instance (rd : RandomDraw) : Decidable rd.Valid := by
  unfold RandomDraw.Valid; infer_instance

/-- Fallback color used to model an out-of-range palette index (never
reached for a valid draw). -/
def fallbackColor : Color := ⟨0, 0, 0, 0⟩

/-- `colors[Math.floor(u * colors.length)]`. -/
def pickColor (u : ℚ) : Color :=
  colors.getD (Int.toNat ⌊u * (colors.length : ℚ)⌋) fallbackColor

/-- `generateRandomGradient` from the source, with the nine
`Math.random()` results made explicit: three palette picks and the six
bounded position draws (`* 40 + 10`, `* 40 + 10`, `* 40 + 60`,
`* 40 + 20`, `* 40 + 40`, `* 40 + 60`). -/
def generateRandomGradient (rd : RandomDraw) : GradientState :=
  { color1 := pickColor rd.u1
    color2 := pickColor rd.u2
    color3 := pickColor rd.u3
    pos1X := rd.v1X * 40 + 10
    pos1Y := rd.v1Y * 40 + 10
    pos2X := rd.v2X * 40 + 60
    pos2Y := rd.v2Y * 40 + 20
    pos3X := rd.v3X * 40 + 40
    pos3Y := rd.v3Y * 40 + 60 }

/-- Rendering of a color record back to its `rgba(r, g, b, a)` string,
the format shared by the palette literals and `lerpColor`. -/
def colorToString (c : Color) : String :=
  "rgba(" ++ toString c.r ++ ", " ++ toString c.g ++ ", " ++
    toString c.b ++ ", " ++ toString c.a ++ ")"

/-- `gradientToString` from the source: the three radial-gradient layers
of the template literal, separated as in the JS source by a newline and
tabs. -/
def gradientToString (grad : GradientState) : String :=
  "radial-gradient(circle at " ++ toString grad.pos1X ++ "% " ++
    toString grad.pos1Y ++ "%, " ++ colorToString grad.color1 ++
    ", transparent 35%),\n\t\t\t\t\t" ++
  "radial-gradient(circle at " ++ toString grad.pos2X ++ "% " ++
    toString grad.pos2Y ++ "%, " ++ colorToString grad.color2 ++
    ", transparent 38%),\n\t\t\t\t\t" ++
  "radial-gradient(circle at " ++ toString grad.pos3X ++ "% " ++
    toString grad.pos3Y ++ "%, " ++ colorToString grad.color3 ++
    ", transparent 42%)"

/-- The two styleable surfaces the animator may drive. -/
inductive Surface where
  | wrapper
  | topbar
deriving DecidableEq, Repr

/-- One `style.setProperty(propertyName, value)` call on a surface. -/
structure StyleWrite where
  surface : Surface
  propertyName : String
  value : String
deriving DecidableEq, Repr

/-- The closure state mutated by `animate`: the two live gradients, the
interpolation progress and the last wall-clock reading (ms). -/
structure AnimState where
  current : GradientState
  target : GradientState
  progress : ℚ
  lastTime : ℚ
deriving DecidableEq, Repr

/-- Everything observable about one `animate` frame: the new closure
state, how many rotations the frame performed, the interpolated gradient
and the style writes issued. -/
structure StepResult where
  state : AnimState
  rotations : ℕ
  interp : GradientState
  writes : List StyleWrite
deriving Repr

/-- Linear interpolation of the full gradient record at parameter `t`,
as computed inline in `animate`: `lerpColor` on the colors, plain linear
interpolation on the positions. -/
def interpGradient (cur tgt : GradientState) (t : ℚ) : GradientState :=
  { color1 := lerpColor cur.color1 tgt.color1 t
    color2 := lerpColor cur.color2 tgt.color2 t
    color3 := lerpColor cur.color3 tgt.color3 t
    pos1X := cur.pos1X + (tgt.pos1X - cur.pos1X) * t
    pos1Y := cur.pos1Y + (tgt.pos1Y - cur.pos1Y) * t
    pos2X := cur.pos2X + (tgt.pos2X - cur.pos2X) * t
    pos2Y := cur.pos2Y + (tgt.pos2Y - cur.pos2Y) * t
    pos3X := cur.pos3X + (tgt.pos3X - cur.pos3X) * t
    pos3Y := cur.pos3Y + (tgt.pos3Y - cur.pos3Y) * t }

/-- The fixed `animationDuration` of the source: 6000 ms. -/
def animationDuration : ℚ := 6000

/-- One `animate` frame.  `wrapper`/`topbar` say whether each surface is
present, `rd` supplies the `Math.random()` results of the (at most one)
`generateRandomGradient` call, `durationMs` is the animation duration
(`6000` in the source) and `now` the `Date.now()` reading.  Mirrors the
source order: accumulate progress, wrap and rotate at most once,
interpolate at `t = progress`, write the rendered string to each present
surface, store `now` in `lastTime`. -/
def animate (wrapper topbar : Bool) (rd : RandomDraw) (durationMs : ℚ)
    (s : AnimState) (now : ℚ) : StepResult :=
  let elapsed := now - s.lastTime
  let rawProgress := s.progress + elapsed / durationMs
  let rotated : Bool := 1 ≤ rawProgress
  let progress := if 1 ≤ rawProgress then rawProgress - 1 else rawProgress
  let current := if 1 ≤ rawProgress then s.target else s.current
  let target := if 1 ≤ rawProgress then generateRandomGradient rd else s.target
  let interp := interpGradient current target progress
  let value := gradientToString interp
  let writes :=
    (if wrapper then [⟨Surface.wrapper, "--hero-bg", value⟩] else []) ++
    (if topbar then [⟨Surface.topbar, "--topbar-bg", value⟩] else [])
  { state := ⟨current, target, progress, now⟩
    rotations := if rotated then 1 else 0
    interp := interp
    writes := writes }

/-- The observable outcome of `setupRandomHeroBg`: the initial style
writes and whether the animation loop was started. -/
structure SetupResult where
  writes : List StyleWrite
  loopStarted : Bool
deriving DecidableEq, Repr

/-- `setupRandomHeroBg` up to the start of the animation loop: if
neither surface is present it returns immediately; otherwise it draws
`current` and `target`, writes the rendered `current` gradient to each
present surface and requests the first animation frame. -/
def setupRandomHeroBg (wrapper topbar : Bool) (rd1 rd2 : RandomDraw) :
    SetupResult :=
  if !wrapper && !topbar then ⟨[], false⟩
  else
    let currentGradient := generateRandomGradient rd1
    let _targetGradient := generateRandomGradient rd2
    let value := gradientToString currentGradient
    ⟨(if wrapper then [⟨Surface.wrapper, "--hero-bg", value⟩] else []) ++
     (if topbar then [⟨Surface.topbar, "--topbar-bg", value⟩] else []),
     true⟩

/-- Validity of a parsed color: channels in [0, 255], alpha in [0, 1]. -/
def Color.Valid (c : Color) : Prop :=
  0 ≤ c.r ∧ c.r ≤ 255 ∧ 0 ≤ c.g ∧ c.g ≤ 255 ∧
  0 ≤ c.b ∧ c.b ≤ 255 ∧ 0 ≤ c.a ∧ c.a ≤ 1

instance (c : Color) : Decidable c.Valid := by
  unfold Color.Valid; infer_instance

/-- Color of the rounded arithmetic midpoints of two colors:
channel-wise average with `Math.round`, alpha average with
`toFixed(2)`. -/
def midColor (c1 c2 : Color) : Color :=
  { r := jsRound (((c1.r : ℚ) + (c2.r : ℚ)) / 2)
    g := jsRound (((c1.g : ℚ) + (c2.g : ℚ)) / 2)
    b := jsRound (((c1.b : ℚ) + (c2.b : ℚ)) / 2)
    a := toFixed2 ((c1.a + c2.a) / 2) }

/-- A fixed valid random draw (all nine components 1/2), used for
concrete instantiations. -/
def sampleDraw : RandomDraw := ⟨1/2, 1/2, 1/2, 1/2, 1/2, 1/2, 1/2, 1/2, 1/2⟩

/-- A concrete gradient state over palette colors, used for concrete
instantiations. -/
def gradA : GradientState :=
  ⟨⟨255, 127, 180, 55/100⟩, ⟨168, 85, 247, 55/100⟩, ⟨96, 165, 250, 55/100⟩,
   20, 20, 70, 30, 50, 70⟩

/-- A second concrete gradient state over palette colors, used for
concrete instantiations. -/
def gradB : GradientState :=
  ⟨⟨20, 184, 166, 55/100⟩, ⟨96, 165, 250, 55/100⟩, ⟨255, 127, 180, 55/100⟩,
   15, 25, 80, 40, 60, 80⟩

lemma jsRound_intCast (z : ℤ) : jsRound (z : ℚ) = z := by
  unfold jsRound
  rw [Int.floor_eq_iff]
  refine ⟨by linarith, ?_⟩
  linarith

lemma jsRound_bounds (lo hi : ℤ) (x : ℚ) (hlo : (lo : ℚ) ≤ x) (hhi : x ≤ hi) :
    lo ≤ jsRound x ∧ jsRound x ≤ hi := by
  unfold jsRound
  constructor
  · rw [Int.le_floor]
    linarith
  · have h : ⌊x + 1/2⌋ < hi + 1 := by
      rw [Int.floor_lt]; push_cast; linarith
    omega

lemma lerp_val_bounds (hi a b t : ℚ) (ha : 0 ≤ a) (ha2 : a ≤ hi) (hb : 0 ≤ b)
    (hb2 : b ≤ hi) (ht : 0 ≤ t) (ht2 : t ≤ 1) :
    0 ≤ a + (b - a) * t ∧ a + (b - a) * t ≤ hi := by
  constructor <;> nlinarith

lemma lerpColor_at_zero (c1 c2 : Color) :
    lerpColor c1 c2 0 = ⟨c1.r, c1.g, c1.b, toFixed2 c1.a⟩ := by
  simp [lerpColor, jsRound_intCast]

lemma lerpColor_at_one (c1 c2 : Color) :
    lerpColor c1 c2 1 = ⟨c2.r, c2.g, c2.b, toFixed2 c2.a⟩ := by
  have h : ∀ x y : ℚ, x + (y - x) * 1 = y := by intro x y; ring
  simp [lerpColor, h, jsRound_intCast]

lemma lerpColor_at_half (c1 c2 : Color) :
    lerpColor c1 c2 (1/2) = midColor c1 c2 := by
  unfold lerpColor midColor
  have hr : ∀ x y : ℚ, x + (y - x) * (1/2) = (x + y) / 2 := by
    intro x y; ring
  simp only [hr]

lemma toFixed2_palette (c : Color) (hc : c ∈ colors) : toFixed2 c.a = c.a := by
  fin_cases hc <;> norm_num [toFixed2, jsRound]

lemma pickColor_mem (u : ℚ) (h0 : 0 ≤ u) (h1 : u < 1) : pickColor u ∈ colors := by
  have hlen : (colors.length : ℚ) = 4 := by norm_num [colors]
  have hf0 : 0 ≤ ⌊u * (colors.length : ℚ)⌋ := by
    apply Int.floor_nonneg.mpr
    rw [hlen]
    nlinarith
  have hf4 : ⌊u * (colors.length : ℚ)⌋ < 4 := by
    rw [Int.floor_lt, hlen]
    push_cast
    nlinarith
  have hidx : Int.toNat ⌊u * (colors.length : ℚ)⌋ < colors.length := by
    have hlen4 : colors.length = 4 := rfl
    omega
  unfold pickColor
  rw [List.getD_eq_getElem colors fallbackColor hidx]
  exact List.getElem_mem hidx

lemma colorToString_in_gradient_one (g : GradientState) :
    ∃ pre post : List Char, (gradientToString g).data =
      pre ++ (colorToString g.color1).data ++ post := by
  refine ⟨("radial-gradient(circle at " ++ toString g.pos1X ++ "% " ++
    toString g.pos1Y ++ "%, ").data, (", transparent 35%),\n\t\t\t\t\t" ++
      "radial-gradient(circle at " ++ toString g.pos2X ++ "% " ++
      toString g.pos2Y ++ "%, " ++ colorToString g.color2 ++
      ", transparent 38%),\n\t\t\t\t\t" ++
      "radial-gradient(circle at " ++ toString g.pos3X ++ "% " ++
      toString g.pos3Y ++ "%, " ++ colorToString g.color3 ++
      ", transparent 42%)").data, ?_⟩
  simp [gradientToString, String.data_append]

lemma colorToString_in_gradient_two (g : GradientState) :
    ∃ pre post : List Char, (gradientToString g).data =
      pre ++ (colorToString g.color2).data ++ post := by
  refine ⟨("radial-gradient(circle at " ++ toString g.pos1X ++ "% " ++
    toString g.pos1Y ++ "%, " ++ colorToString g.color1 ++
    ", transparent 35%),\n\t\t\t\t\t" ++
    "radial-gradient(circle at " ++ toString g.pos2X ++ "% " ++
    toString g.pos2Y ++ "%, ").data, (", transparent 38%),\n\t\t\t\t\t" ++
      "radial-gradient(circle at " ++ toString g.pos3X ++ "% " ++
      toString g.pos3Y ++ "%, " ++ colorToString g.color3 ++
      ", transparent 42%)").data, ?_⟩
  simp [gradientToString, String.data_append]

lemma colorToString_in_gradient_three (g : GradientState) :
    ∃ pre post : List Char, (gradientToString g).data =
      pre ++ (colorToString g.color3).data ++ post := by
  refine ⟨("radial-gradient(circle at " ++ toString g.pos1X ++ "% " ++
    toString g.pos1Y ++ "%, " ++ colorToString g.color1 ++
    ", transparent 35%),\n\t\t\t\t\t" ++
    "radial-gradient(circle at " ++ toString g.pos2X ++ "% " ++
    toString g.pos2Y ++ "%, " ++ colorToString g.color2 ++
    ", transparent 38%),\n\t\t\t\t\t" ++
    "radial-gradient(circle at " ++ toString g.pos3X ++ "% " ++
    toString g.pos3Y ++ "%, ").data, (", transparent 42%)").data, ?_⟩
  simp [gradientToString, String.data_append]

/-- C1 (counterexample): the claim "after any update step with
non-negative elapsed time and starting progress in [0,1), the observed
progress is in [0,1)" is false: starting from progress 0 with elapsed
12000 ms (duration 6000 ms), raw progress reaches 2 and the single
subtraction leaves progress at 1, outside [0,1). -/
theorem claim_C1_counterexample :
    (0:ℚ) ≤ 12000 - (0:ℚ) ∧ (0:ℚ) ≤ 0 ∧ (0:ℚ) < 1 ∧
    ¬ ((animate false false sampleDraw 6000 ⟨gradA, gradB, 0, 0⟩
        12000).state.progress < 1) := by
  refine ⟨by norm_num, by norm_num, by norm_num, ?_⟩
  norm_num [animate]

/-- C1 (amended): if additionally the raw progress
progress + elapsed/durationMs stays below 2 (at most one full period
beyond the wrap point), then the progress observed right after the
update step is in [0,1): it either stayed below 1 or was wrapped back
by the single subtraction. -/
theorem claim_C1_progress_wraps (wrapper topbar : Bool) (rd : RandomDraw)
    (d : ℚ) (s : AnimState) (now : ℚ)
    (hd : 0 < d) (hp0 : 0 ≤ s.progress) (hp1 : s.progress < 1)
    (he : 0 ≤ now - s.lastTime)
    (hlt : s.progress + (now - s.lastTime) / d < 2) :
    0 ≤ (animate wrapper topbar rd d s now).state.progress ∧
      (animate wrapper topbar rd d s now).state.progress < 1 := by
  have hq : 0 ≤ (now - s.lastTime) / d := div_nonneg he hd.le
  simp only [animate]
  by_cases h : 1 ≤ s.progress + (now - s.lastTime) / d
  · rw [if_pos h]
    constructor <;> linarith
  · rw [if_neg h]
    push_neg at h
    constructor <;> linarith

/-- Witness for the amended C1 at a concrete input: progress 1/2,
elapsed 3000 ms, duration 6000 ms. -/
theorem claim_C1_progress_wraps_witness :
    (0:ℚ) < 6000 ∧ (0:ℚ) ≤ (1/2 : ℚ) ∧ (1/2 : ℚ) < 1 ∧
    (0:ℚ) ≤ (3000:ℚ) - 0 ∧ (1/2 : ℚ) + ((3000:ℚ) - 0) / 6000 < 2 ∧
    (0 ≤ (animate true true sampleDraw 6000 ⟨gradA, gradB, 1/2, 0⟩
        3000).state.progress ∧
      (animate true true sampleDraw 6000 ⟨gradA, gradB, 1/2, 0⟩
        3000).state.progress < 1) :=
  ⟨by norm_num, by norm_num, by norm_num, by norm_num, by norm_num,
   claim_C1_progress_wraps true true sampleDraw 6000 ⟨gradA, gradB, 1/2, 0⟩
     3000 (by norm_num) (by norm_num) (by norm_num) (by norm_num)
     (by norm_num)⟩

/-- C2: in any update step whose raw progress reaches at least 1, the
step performs exactly one rotation (rotations = 1, never more, however
large the elapsed time), after which the new current gradient is the
pre-update target and the new target is the freshly generated
gradient. -/
theorem claim_C2_rotation (wrapper topbar : Bool) (rd : RandomDraw)
    (d : ℚ) (s : AnimState) (now : ℚ)
    (h1 : 1 ≤ s.progress + (now - s.lastTime) / d) :
    (animate wrapper topbar rd d s now).state.current = s.target ∧
      (animate wrapper topbar rd d s now).state.target =
        generateRandomGradient rd ∧
      (animate wrapper topbar rd d s now).rotations = 1 := by
  simp only [animate, if_pos h1]
  simp [h1]

/-- Witness for C2 at a concrete input: progress 9/10, elapsed 1200 ms,
duration 6000 ms, raw progress 11/10. -/
theorem claim_C2_rotation_witness :
    (1:ℚ) ≤ (9/10 : ℚ) + ((1200:ℚ) - 0) / 6000 ∧
    ((animate true true sampleDraw 6000 ⟨gradA, gradB, 9/10, 0⟩
        1200).state.current = gradB ∧
      (animate true true sampleDraw 6000 ⟨gradA, gradB, 9/10, 0⟩
        1200).state.target = generateRandomGradient sampleDraw ∧
      (animate true true sampleDraw 6000 ⟨gradA, gradB, 9/10, 0⟩
        1200).rotations = 1) :=
  ⟨by norm_num,
   claim_C2_rotation true true sampleDraw 6000 ⟨gradA, gradB, 9/10, 0⟩
     1200 (by norm_num)⟩

/-- C3: for palette colors, interpolation at t = 0 returns the first
color exactly and at t = 1 the second color exactly (the channel
rounding and 2-decimal alpha rounding are exact on palette values). -/
theorem claim_C3_lerp_endpoints (c1 c2 : Color) (h1 : c1 ∈ colors)
    (h2 : c2 ∈ colors) :
    lerpColor c1 c2 0 = c1 ∧ lerpColor c1 c2 1 = c2 := by
  constructor
  · rw [lerpColor_at_zero, toFixed2_palette c1 h1]
  · rw [lerpColor_at_one, toFixed2_palette c2 h2]

/-- Witness for C3 on the first two palette entries. -/
theorem claim_C3_lerp_endpoints_witness :
    (⟨255, 127, 180, 55/100⟩ : Color) ∈ colors ∧
    (⟨168, 85, 247, 55/100⟩ : Color) ∈ colors ∧
    (lerpColor ⟨255, 127, 180, 55/100⟩ ⟨168, 85, 247, 55/100⟩ 0 =
        ⟨255, 127, 180, 55/100⟩ ∧
      lerpColor ⟨255, 127, 180, 55/100⟩ ⟨168, 85, 247, 55/100⟩ 1 =
        ⟨168, 85, 247, 55/100⟩) :=
  ⟨by simp [colors], by simp [colors],
   claim_C3_lerp_endpoints _ _ (by simp [colors]) (by simp [colors])⟩

/-- C4: for valid colors and t in [0,1], the interpolated color has
integer channels (they are integers by construction of `jsRound`) lying
in [0,255], and an alpha in [0,1] that is an integer multiple of 1/100,
i.e. rounded to 2 decimal places. -/
theorem claim_C4_lerp_ranges (c1 c2 : Color) (t : ℚ)
    (hc1 : c1.Valid) (hc2 : c2.Valid) (ht0 : 0 ≤ t) (ht1 : t ≤ 1) :
    (0 ≤ (lerpColor c1 c2 t).r ∧ (lerpColor c1 c2 t).r ≤ 255) ∧
    (0 ≤ (lerpColor c1 c2 t).g ∧ (lerpColor c1 c2 t).g ≤ 255) ∧
    (0 ≤ (lerpColor c1 c2 t).b ∧ (lerpColor c1 c2 t).b ≤ 255) ∧
    (0 ≤ (lerpColor c1 c2 t).a ∧ (lerpColor c1 c2 t).a ≤ 1) ∧
    (∃ k : ℤ, (lerpColor c1 c2 t).a = (k : ℚ) / 100) := by
  obtain ⟨hr0, hr1, hg0, hg1, hb0, hb1, ha0, ha1⟩ := hc1
  obtain ⟨hr2, hr3, hg2, hg3, hb2, hb3, ha2, ha3⟩ := hc2
  simp only [lerpColor]
  refine ⟨?_, ?_, ?_, ?_, ?_⟩
  · have hx := lerp_val_bounds 255 (c1.r : ℚ) (c2.r : ℚ) t
      (by exact_mod_cast hr0) (by exact_mod_cast hr1)
      (by exact_mod_cast hr2) (by exact_mod_cast hr3) ht0 ht1
    exact jsRound_bounds 0 255 _ (by exact_mod_cast hx.1)
      (by exact_mod_cast hx.2)
  · have hx := lerp_val_bounds 255 (c1.g : ℚ) (c2.g : ℚ) t
      (by exact_mod_cast hg0) (by exact_mod_cast hg1)
      (by exact_mod_cast hg2) (by exact_mod_cast hg3) ht0 ht1
    exact jsRound_bounds 0 255 _ (by exact_mod_cast hx.1)
      (by exact_mod_cast hx.2)
  · have hx := lerp_val_bounds 255 (c1.b : ℚ) (c2.b : ℚ) t
      (by exact_mod_cast hb0) (by exact_mod_cast hb1)
      (by exact_mod_cast hb2) (by exact_mod_cast hb3) ht0 ht1
    exact jsRound_bounds 0 255 _ (by exact_mod_cast hx.1)
      (by exact_mod_cast hx.2)
  · have hx := lerp_val_bounds 1 c1.a c2.a t ha0 ha1 ha2 ha3 ht0 ht1
    have hk := jsRound_bounds 0 100 ((c1.a + (c2.a - c1.a) * t) * 100)
      (by push_cast; nlinarith [hx.1]) (by push_cast; nlinarith [hx.2])
    unfold toFixed2
    constructor
    · apply div_nonneg _ (by norm_num : (0:ℚ) ≤ 100)
      exact_mod_cast hk.1
    · rw [div_le_one (by norm_num : (0:ℚ) < 100)]
      exact_mod_cast hk.2
  · exact ⟨jsRound ((c1.a + (c2.a - c1.a) * t) * 100), rfl⟩

/-- Witness for C4 on two palette entries at t = 1/2. -/
theorem claim_C4_lerp_ranges_witness :
    (⟨255, 127, 180, 55/100⟩ : Color).Valid ∧
    (⟨20, 184, 166, 55/100⟩ : Color).Valid ∧
    (0:ℚ) ≤ 1/2 ∧ (1/2:ℚ) ≤ 1 ∧
    ((0 ≤ (lerpColor ⟨255, 127, 180, 55/100⟩ ⟨20, 184, 166, 55/100⟩ (1/2)).r ∧
        (lerpColor ⟨255, 127, 180, 55/100⟩ ⟨20, 184, 166, 55/100⟩ (1/2)).r ≤ 255) ∧
      (0 ≤ (lerpColor ⟨255, 127, 180, 55/100⟩ ⟨20, 184, 166, 55/100⟩ (1/2)).g ∧
        (lerpColor ⟨255, 127, 180, 55/100⟩ ⟨20, 184, 166, 55/100⟩ (1/2)).g ≤ 255) ∧
      (0 ≤ (lerpColor ⟨255, 127, 180, 55/100⟩ ⟨20, 184, 166, 55/100⟩ (1/2)).b ∧
        (lerpColor ⟨255, 127, 180, 55/100⟩ ⟨20, 184, 166, 55/100⟩ (1/2)).b ≤ 255) ∧
      (0 ≤ (lerpColor ⟨255, 127, 180, 55/100⟩ ⟨20, 184, 166, 55/100⟩ (1/2)).a ∧
        (lerpColor ⟨255, 127, 180, 55/100⟩ ⟨20, 184, 166, 55/100⟩ (1/2)).a ≤ 1) ∧
      (∃ k : ℤ, (lerpColor ⟨255, 127, 180, 55/100⟩ ⟨20, 184, 166, 55/100⟩ (1/2)).a =
        (k : ℚ) / 100)) :=
  ⟨by norm_num [Color.Valid], by norm_num [Color.Valid], by norm_num,
   by norm_num,
   claim_C4_lerp_ranges _ _ _ (by norm_num [Color.Valid])
     (by norm_num [Color.Valid]) (by norm_num) (by norm_num)⟩

/-- C5: for any valid random draw, the generated gradient has exactly 3
stops, each stop color is a palette member, and the stop positions lie
in their per-stop bounded ranges: stop 1 in [10,50) x [10,50)
(top-left), stop 2 in [60,100) x [20,60) (top-right), stop 3 in
[40,80) x [60,100) (bottom-center) - none spanning the full 0-100. -/
theorem claim_C5_generate_shape (rd : RandomDraw) (h : rd.Valid) :
    (generateRandomGradient rd).stops.length = 3 ∧
    (generateRandomGradient rd).color1 ∈ colors ∧
    (generateRandomGradient rd).color2 ∈ colors ∧
    (generateRandomGradient rd).color3 ∈ colors ∧
    (10 ≤ (generateRandomGradient rd).pos1X ∧
      (generateRandomGradient rd).pos1X < 50) ∧
    (10 ≤ (generateRandomGradient rd).pos1Y ∧
      (generateRandomGradient rd).pos1Y < 50) ∧
    (60 ≤ (generateRandomGradient rd).pos2X ∧
      (generateRandomGradient rd).pos2X < 100) ∧
    (20 ≤ (generateRandomGradient rd).pos2Y ∧
      (generateRandomGradient rd).pos2Y < 60) ∧
    (40 ≤ (generateRandomGradient rd).pos3X ∧
      (generateRandomGradient rd).pos3X < 80) ∧
    (60 ≤ (generateRandomGradient rd).pos3Y ∧
      (generateRandomGradient rd).pos3Y < 100) := by
  simp only [RandomDraw.Valid, unitIv] at h
  obtain ⟨hu1, hu2, hu3, h1X, h1Y, h2X, h2Y, h3X, h3Y⟩ := h
  simp only [generateRandomGradient]
  refine ⟨rfl, pickColor_mem _ hu1.1 hu1.2, pickColor_mem _ hu2.1 hu2.2,
    pickColor_mem _ hu3.1 hu3.2, ?_, ?_, ?_, ?_, ?_, ?_⟩
  all_goals constructor <;> linarith

/-- Witness for C5 on the all-1/2 draw. -/
theorem claim_C5_generate_shape_witness :
    sampleDraw.Valid ∧
    ((generateRandomGradient sampleDraw).stops.length = 3 ∧
      (generateRandomGradient sampleDraw).color1 ∈ colors ∧
      (generateRandomGradient sampleDraw).color2 ∈ colors ∧
      (generateRandomGradient sampleDraw).color3 ∈ colors ∧
      (10 ≤ (generateRandomGradient sampleDraw).pos1X ∧
        (generateRandomGradient sampleDraw).pos1X < 50) ∧
      (10 ≤ (generateRandomGradient sampleDraw).pos1Y ∧
        (generateRandomGradient sampleDraw).pos1Y < 50) ∧
      (60 ≤ (generateRandomGradient sampleDraw).pos2X ∧
        (generateRandomGradient sampleDraw).pos2X < 100) ∧
      (20 ≤ (generateRandomGradient sampleDraw).pos2Y ∧
        (generateRandomGradient sampleDraw).pos2Y < 60) ∧
      (40 ≤ (generateRandomGradient sampleDraw).pos3X ∧
        (generateRandomGradient sampleDraw).pos3X < 80) ∧
      (60 ≤ (generateRandomGradient sampleDraw).pos3Y ∧
        (generateRandomGradient sampleDraw).pos3Y < 100)) :=
  ⟨by norm_num [RandomDraw.Valid, unitIv, sampleDraw],
   claim_C5_generate_shape sampleDraw
     (by norm_num [RandomDraw.Valid, unitIv, sampleDraw])⟩

/-- C6: from progress 9/10, a step whose elapsed time pushes raw
progress to 13/10 leaves progress at exactly 3/10 (approximately 0.3),
performs exactly one rotation, and makes current the pre-update
target. -/
theorem claim_C6_scenario_rotation (wrapper topbar : Bool)
    (rd : RandomDraw) (d : ℚ) (s : AnimState) (now : ℚ)
    (hp : s.progress = 9/10)
    (hraw : s.progress + (now - s.lastTime) / d = 13/10) :
    (animate wrapper topbar rd d s now).state.progress = 3/10 ∧
      (animate wrapper topbar rd d s now).rotations = 1 ∧
      (animate wrapper topbar rd d s now).state.current = s.target := by
  have h1 : 1 ≤ s.progress + (now - s.lastTime) / d := by
    rw [hraw]; norm_num
  simp only [animate, if_pos h1]
  rw [hraw]
  norm_num [h1]

/-- Witness for C6: progress 9/10, duration 6000 ms, elapsed 2400 ms,
raw progress 13/10. -/
theorem claim_C6_scenario_rotation_witness :
    ((⟨gradA, gradB, 9/10, 0⟩ : AnimState).progress = 9/10) ∧
    ((⟨gradA, gradB, 9/10, 0⟩ : AnimState).progress +
      ((2400:ℚ) - (⟨gradA, gradB, 9/10, 0⟩ : AnimState).lastTime) / 6000 =
      13/10) ∧
    ((animate true true sampleDraw 6000 ⟨gradA, gradB, 9/10, 0⟩
        2400).state.progress = 3/10 ∧
      (animate true true sampleDraw 6000 ⟨gradA, gradB, 9/10, 0⟩
        2400).rotations = 1 ∧
      (animate true true sampleDraw 6000 ⟨gradA, gradB, 9/10, 0⟩
        2400).state.current = gradB) :=
  ⟨by norm_num, by norm_num,
   claim_C6_scenario_rotation true true sampleDraw 6000
     ⟨gradA, gradB, 9/10, 0⟩ 2400 (by norm_num) (by norm_num)⟩

/-- C7: with duration 6000 ms, starting progress 0 and elapsed 3000 ms,
the step yields progress 1/2 with no rotation; every string written
this frame is the rendering of the interpolated gradient, whose three
colors are the rounded channel midpoints (and 2-decimal-rounded alpha
midpoint) of the corresponding current and target stop colors, and the
rendered string contains each of the three midpoint color strings. -/
theorem claim_C7_scenario_midframe (wrapper topbar : Bool)
    (rd : RandomDraw) (s : AnimState) (now : ℚ)
    (hp : s.progress = 0) (he : now - s.lastTime = 3000) :
    (animate wrapper topbar rd 6000 s now).state.progress = 1/2 ∧
    (animate wrapper topbar rd 6000 s now).rotations = 0 ∧
    (animate wrapper topbar rd 6000 s now).interp.color1 =
      midColor s.current.color1 s.target.color1 ∧
    (animate wrapper topbar rd 6000 s now).interp.color2 =
      midColor s.current.color2 s.target.color2 ∧
    (animate wrapper topbar rd 6000 s now).interp.color3 =
      midColor s.current.color3 s.target.color3 ∧
    (∀ w ∈ (animate wrapper topbar rd 6000 s now).writes,
      w.value =
        gradientToString (animate wrapper topbar rd 6000 s now).interp) ∧
    (∃ pre post : List Char,
      (gradientToString (animate wrapper topbar rd 6000 s now).interp).data =
        pre ++ (colorToString
          (midColor s.current.color1 s.target.color1)).data ++ post) ∧
    (∃ pre post : List Char,
      (gradientToString (animate wrapper topbar rd 6000 s now).interp).data =
        pre ++ (colorToString
          (midColor s.current.color2 s.target.color2)).data ++ post) ∧
    (∃ pre post : List Char,
      (gradientToString (animate wrapper topbar rd 6000 s now).interp).data =
        pre ++ (colorToString
          (midColor s.current.color3 s.target.color3)).data ++ post) := by
  have hraw : s.progress + (now - s.lastTime) / 6000 = 1/2 := by
    rw [hp, he]; norm_num
  have hnot : ¬ (1 ≤ s.progress + (now - s.lastTime) / 6000) := by
    rw [hraw]; norm_num
  have hinterp : (animate wrapper topbar rd 6000 s now).interp =
      interpGradient s.current s.target (1/2) := by
    simp only [animate, if_neg hnot]
    rw [hraw]
  have hc1 : (interpGradient s.current s.target (1/2)).color1 =
      midColor s.current.color1 s.target.color1 := by
    simp only [interpGradient]
    exact lerpColor_at_half _ _
  have hc2 : (interpGradient s.current s.target (1/2)).color2 =
      midColor s.current.color2 s.target.color2 := by
    simp only [interpGradient]
    exact lerpColor_at_half _ _
  have hc3 : (interpGradient s.current s.target (1/2)).color3 =
      midColor s.current.color3 s.target.color3 := by
    simp only [interpGradient]
    exact lerpColor_at_half _ _
  refine ⟨?_, ?_, ?_, ?_, ?_, ?_, ?_, ?_, ?_⟩
  · simp only [animate, if_neg hnot]
    exact hraw
  · simp only [animate]
    simp [hnot]
  · rw [hinterp]; exact hc1
  · rw [hinterp]; exact hc2
  · rw [hinterp]; exact hc3
  · intro w hw
    simp only [animate, if_neg hnot] at hw ⊢
    rcases wrapper <;> rcases topbar
    · simp at hw
    · simp at hw
      subst hw
      rfl
    · simp at hw
      subst hw
      rfl
    · simp at hw
      rcases hw with rfl | rfl <;> rfl
  · rw [hinterp, ← hc1]
    exact colorToString_in_gradient_one _
  · rw [hinterp, ← hc2]
    exact colorToString_in_gradient_two _
  · rw [hinterp, ← hc3]
    exact colorToString_in_gradient_three _

/-- Witness for C7: both surfaces present, state (gradA, gradB,
progress 0, lastTime 0), frame at 3000 ms. -/
theorem claim_C7_scenario_midframe_witness :
    ((⟨gradA, gradB, 0, 0⟩ : AnimState).progress = 0) ∧
    ((3000:ℚ) - (⟨gradA, gradB, 0, 0⟩ : AnimState).lastTime = 3000) ∧
    ((animate true true sampleDraw 6000 ⟨gradA, gradB, 0, 0⟩
        3000).state.progress = 1/2 ∧
      (animate true true sampleDraw 6000 ⟨gradA, gradB, 0, 0⟩
        3000).rotations = 0 ∧
      (animate true true sampleDraw 6000 ⟨gradA, gradB, 0, 0⟩
        3000).interp.color1 = midColor gradA.color1 gradB.color1 ∧
      (animate true true sampleDraw 6000 ⟨gradA, gradB, 0, 0⟩
        3000).interp.color2 = midColor gradA.color2 gradB.color2 ∧
      (animate true true sampleDraw 6000 ⟨gradA, gradB, 0, 0⟩
        3000).interp.color3 = midColor gradA.color3 gradB.color3 ∧
      (∀ w ∈ (animate true true sampleDraw 6000 ⟨gradA, gradB, 0, 0⟩
          3000).writes,
        w.value = gradientToString (animate true true sampleDraw 6000
          ⟨gradA, gradB, 0, 0⟩ 3000).interp) ∧
      (∃ pre post : List Char,
        (gradientToString (animate true true sampleDraw 6000
            ⟨gradA, gradB, 0, 0⟩ 3000).interp).data =
          pre ++ (colorToString (midColor gradA.color1 gradB.color1)).data
            ++ post) ∧
      (∃ pre post : List Char,
        (gradientToString (animate true true sampleDraw 6000
            ⟨gradA, gradB, 0, 0⟩ 3000).interp).data =
          pre ++ (colorToString (midColor gradA.color2 gradB.color2)).data
            ++ post) ∧
      (∃ pre post : List Char,
        (gradientToString (animate true true sampleDraw 6000
            ⟨gradA, gradB, 0, 0⟩ 3000).interp).data =
          pre ++ (colorToString (midColor gradA.color3 gradB.color3)).data
            ++ post)) :=
  ⟨by norm_num, by norm_num,
   claim_C7_scenario_midframe true true sampleDraw ⟨gradA, gradB, 0, 0⟩
     3000 (by norm_num) (by norm_num)⟩

/-- C8: when neither the hero wrapper nor the topbar exists,
`setupRandomHeroBg` returns immediately: it issues no style writes and
does not start the animation loop. -/
theorem claim_C8_absent_surfaces_noop (rd1 rd2 : RandomDraw) :
    setupRandomHeroBg false false rd1 rd2 = ⟨[], false⟩ := rfl

/-- C9: when both surfaces are present, every frame issues exactly two
style writes, one to the hero custom property and one to the topbar
custom property, both carrying the identical rendered gradient string
of the one shared interpolated state. -/
theorem claim_C9_surfaces_in_sync (rd : RandomDraw) (d : ℚ)
    (s : AnimState) (now : ℚ) :
    (animate true true rd d s now).writes =
      [⟨Surface.wrapper, "--hero-bg",
        gradientToString (animate true true rd d s now).interp⟩,
       ⟨Surface.topbar, "--topbar-bg",
        gradientToString (animate true true rd d s now).interp⟩] := rfl

/-- C10: interpolating a valid color with itself at any t in [0,1] is
the identity on the three channels, and maps the alpha to its 2-decimal
rounding (so a stop whose current and target colors coincide never
changes color during a cycle). -/
theorem claim_C10_lerp_self (c : Color) (t : ℚ) (hc : c.Valid)
    (ht0 : 0 ≤ t) (ht1 : t ≤ 1) :
    lerpColor c c t = ⟨c.r, c.g, c.b, toFixed2 c.a⟩ := by
  simp [lerpColor, sub_self, zero_mul, add_zero, jsRound_intCast]

/-- Witness for C10 on the first palette entry at t = 1/3. -/
theorem claim_C10_lerp_self_witness :
    (⟨255, 127, 180, 55/100⟩ : Color).Valid ∧
    (0:ℚ) ≤ 1/3 ∧ (1/3:ℚ) ≤ 1 ∧
    lerpColor ⟨255, 127, 180, 55/100⟩ ⟨255, 127, 180, 55/100⟩ (1/3) =
      ⟨255, 127, 180, toFixed2 (55/100)⟩ :=
  ⟨by norm_num [Color.Valid], by norm_num, by norm_num,
   claim_C10_lerp_self _ _ (by norm_num [Color.Valid]) (by norm_num)
     (by norm_num)⟩
